import Mathlib

/-!
Verification of the resilient request pipeline of the `agri` front end:
the retry/offline-queue executor (`src/api-client.js`), the authenticated
request layer (`src/config.js`), and the newline-delimited JSON stream
decoders (`src/script.js`).  Each JavaScript function the claims touch is
shallowly embedded as a pure Lean function; network transport, the DOM and
`localStorage` are modelled as explicit parameters and state records.
-/

namespace Agri

/-! ## JavaScript string primitives

`String.prototype.includes(sub)` as used by `shouldRetry`, and decimal
rendering of a number as performed by the template literal
`HTTP status: statusText`. -/

/-- `listIncludes s sub` is `String.prototype.includes` on character lists:
`sub` occurs contiguously inside `s` (the empty needle always occurs). -/
def listIncludes : List Char → List Char → Bool
  | _, [] => true
  | [], _ :: _ => false
  | s :: ss, sub => List.isPrefixOf sub (s :: ss) || listIncludes ss sub

/-- `jsIncludes s sub` models `s.includes(sub)`. -/
def jsIncludes (s sub : String) : Bool :=
  listIncludes s.toList sub.toList

/-- Decimal digits, most significant first, with explicit fuel (any fuel
of at least the number of digits minus one is enough). -/
def decDigitsAux : Nat → Nat → List Nat
  | 0, n => [n]
  | fuel + 1, n => if n < 10 then [n] else decDigitsAux fuel (n / 10) ++ [n % 10]

/-- Decimal digits of a natural number, most significant first
(the digits of `0` are `[0]`), modelling JavaScript number-to-string
conversion inside a template literal. -/
def decDigits (n : Nat) : List Nat :=
  decDigitsAux n n

/-- Decimal string of a natural number. -/
def decRepr (n : Nat) : String :=
  ⟨(decDigits n).map (fun d => Char.ofNat (48 + d))⟩

/-! ## `APIClient` (src/api-client.js)

The transport (`window.API.request` followed by the `response.ok` check)
is abstracted per attempt: either a response with an ok status, a response
with a non-ok status (which `makeRequest` turns into the thrown message
`HTTP status: statusText`), or a rejection of the fetch itself carrying
its message. -/

/-- Outcome of one call to `window.API.request` as observed by
`makeRequest`. -/
inductive Transport where
  | ok (body : String)
  | httpErr (status : Nat) (statusText : String)
  | netErr (msg : String)
  deriving Repr, DecidableEq

/-- The message of the error `makeRequest` catches for a failed attempt:
`HTTP status: statusText` for a non-ok response, the rejection message for
a transport failure. -/
def errorMessage : Transport → Option String
  | .ok _ => none
  | .httpErr status statusText =>
      some ("HTTP " ++ decRepr status ++ ": " ++ statusText)
  | .netErr msg => some msg

/-- `this.retryAttempts` from the `APIClient` constructor. -/
def retryAttempts : Nat := 3

/-- `this.retryDelay` (milliseconds) from the `APIClient` constructor. -/
def retryDelay : Nat := 1000

/-- `shouldRetry(error)`: retry exactly when the error message includes
the substring `fetch`, `5` or `timeout`. -/
def shouldRetry (msg : String) : Bool :=
  jsIncludes msg "fetch" || jsIncludes msg "5" || jsIncludes msg "timeout"

/-- An offline-queue entry of endpoint, options and timestamp, as pushed
by `queueOfflineRequest`.  Request options are abstract. -/
structure QueueEntry (Opts : Type) where
  endpoint : String
  options : Opts
  timestamp : Nat
  deriving Repr, DecidableEq

/-- The client state visible to the queue code: the in-memory
`this.offlineQueue` array and the `offline_queue` key of `localStorage`
(`none` when the key is absent). -/
structure ClientState (Opts : Type) where
  offlineQueue : List (QueueEntry Opts)
  stored : Option (List (QueueEntry Opts))
  deriving Repr, DecidableEq

/-- `queueOfflineRequest(endpoint, options)`: push the entry and persist
the whole queue under the `offline_queue` key. -/
def queueOfflineRequest {Opts : Type} (st : ClientState Opts)
    (endpoint : String) (options : Opts) (now : Nat) : ClientState Opts :=
  let q := st.offlineQueue ++ [⟨endpoint, options, now⟩]
  { offlineQueue := q, stored := some q }

/-- What one call of `makeRequest` produced: the value returned or the
message thrown. -/
inductive MRResult where
  | success (body : String)
  | thrown (msg : String)
  deriving Repr, DecidableEq

/-- Observable trace of one `makeRequest` call: how many network calls
were made and which delays were awaited (in order). -/
structure MRTrace where
  calls : Nat
  delays : List Nat
  deriving Repr, DecidableEq

/-- `makeRequest(endpoint, options, attempt)`.  `online` is
`navigator.onLine`, `oracle a` the transport outcome of the network call
made at attempt number `a`, `now` the `Date.now()` used for a queued
entry.  Returns the result, the final client state and the trace. -/
def makeRequest {Opts : Type} (online : Bool) (oracle : Nat → Transport)
    (endpoint : String) (options : Opts) (now : Nat)
    (st : ClientState Opts) (attempt : Nat) :
    MRResult × ClientState Opts × MRTrace :=
  match oracle attempt with
  | .ok body => (.success body, st, ⟨1, []⟩)
  | .httpErr status statusText =>
      -- `throw new Error(...)` lands in the catch block with this message
      let msg := "HTTP " ++ decRepr status ++ ": " ++ statusText
      if hret : attempt < retryAttempts ∧ shouldRetry msg then
        let rest := makeRequest online oracle endpoint options now st
          (attempt + 1)
        (rest.1, rest.2.1,
         ⟨rest.2.2.calls + 1, retryDelay :: rest.2.2.delays⟩)
      else if !online then
        (.thrown "Request queued for when online",
         queueOfflineRequest st endpoint options now, ⟨1, []⟩)
      else
        (.thrown msg, st, ⟨1, []⟩)
  | .netErr msg =>
      if hret : attempt < retryAttempts ∧ shouldRetry msg then
        let rest := makeRequest online oracle endpoint options now st
          (attempt + 1)
        (rest.1, rest.2.1,
         ⟨rest.2.2.calls + 1, retryDelay :: rest.2.2.delays⟩)
      else if !online then
        (.thrown "Request queued for when online",
         queueOfflineRequest st endpoint options now, ⟨1, []⟩)
      else
        (.thrown msg, st, ⟨1, []⟩)
  termination_by retryAttempts - attempt
  decreasing_by all_goals omega

/-- One line of the replay log of `processOfflineQueue`: which endpoint
was re-invoked and whether its `makeRequest` resolved (`console.log`
branch) or rejected (`console.error` branch). -/
structure ReplayEvent where
  endpoint : String
  succeeded : Bool
  deriving Repr, DecidableEq

/-- The `for (const request of queue)` loop of `processOfflineQueue`:
each entry is replayed through `makeRequest` (attempt 1) inside a
try/catch, so a failure is logged and the loop continues.  `oracles i`
is the transport oracle of the replay of the i-th entry. -/
def replayLoop {Opts : Type} (online : Bool)
    (oracles : Nat → Nat → Transport) (now : Nat) :
    ClientState Opts → List (QueueEntry Opts) → Nat →
    ClientState Opts × List ReplayEvent
  | st, [], _ => (st, [])
  | st, e :: rest, i =>
      let r := makeRequest online (oracles i) e.endpoint e.options now st 1
      let ok := match r.1 with
        | .success _ => true
        | .thrown _ => false
      let tail := replayLoop online oracles now r.2.1 rest (i + 1)
      (tail.1, ⟨e.endpoint, ok⟩ :: tail.2)

/-- `processOfflineQueue()`: read the persisted queue (the stored value,
or the empty list when the key is absent), replay each entry in order
with log-and-continue, then `localStorage.removeItem('offline_queue')`
and `this.offlineQueue = []`. -/
def processOfflineQueue {Opts : Type} (online : Bool)
    (oracles : Nat → Nat → Transport) (now : Nat) (st : ClientState Opts) :
    ClientState Opts × List ReplayEvent :=
  let queue := st.stored.getD []
  let r := replayLoop online oracles now st queue 0
  (({ offlineQueue := [], stored := none } : ClientState Opts), r.2)

/-! ## `APIConfig` (src/config.js)

The authenticated request layer.  `localStorage`'s token keys are the
`AuthStore`; the two possible `fetch` calls of `request` and the `fetch`
of `refreshToken` are oracles supplied as parameters. -/

/-- JavaScript truthiness of an optional string (absent, `null` and the
empty string are falsy). -/
def truthy : Option String → Bool
  | none => false
  | some s => s != ""

/-- The `access_token` / `refresh_token` keys of `localStorage`. -/
structure AuthStore where
  access_token : Option String
  refresh_token : Option String
  deriving Repr, DecidableEq

/-- The headers object built by `getHeaders()`. -/
structure Headers where
  contentType : Option String
  authorization : Option String
  deriving Repr, DecidableEq

/-- `getHeaders()`: a base content-type header, plus a bearer
authorization header when an access token is present (and truthy) in the
store. -/
def getHeaders (st : AuthStore) : Headers :=
  { contentType := some "application/json",
    authorization :=
      match st.access_token with
      | some t => if t == "" then none else some ("Bearer " ++ t)
      | none => none }

/-- `getURL(endpoint)`: base address concatenated with the endpoint
path. -/
def getURL (baseURL endpoint : String) : String :=
  baseURL ++ endpoint

/-- Outcome of one `fetch` as seen by `request`: a response with a
status and body, or a rejection. -/
inductive FetchResult where
  | resp (status : Nat) (body : String)
  | netErr (msg : String)
  deriving Repr, DecidableEq

/-- Outcome of the refresh `fetch` as seen by `refreshToken`: a response
(`ok` is `response.ok`; `access_token` the parsed body's token), or a
rejection. -/
inductive RefreshFetch where
  | resp (ok : Bool) (access_token : String)
  | netErr
  deriving Repr, DecidableEq

/-- `refreshToken()`: `false` without a (truthy) stored refresh token;
otherwise one refresh call, persisting the returned access token on an
ok response.  Returns (result, store, number of refresh calls made). -/
def refreshToken (st : AuthStore) (rf : RefreshFetch) :
    Bool × AuthStore × Nat :=
  match st.refresh_token with
  | none => (false, st, 0)
  | some rt =>
      if rt == "" then (false, st, 0)
      else
        match rf with
        | .netErr => (false, st, 1)
        | .resp ok tok =>
            if ok then (true, { st with access_token := some tok }, 1)
            else (false, st, 1)

/-- The caller-supplied fetch options object (`method`, `body`,
`headers`; each field optional as in a JavaScript object literal). -/
structure FetchOptions where
  method : Option String := none
  body : Option String := none
  headers : Option Headers := none
  deriving Repr, DecidableEq

/-- One `fetch(url, config)` call of `request`, with the config used. -/
structure FetchCall where
  url : String
  headers : Headers
  method : Option String
  body : Option String
  deriving Repr, DecidableEq

/-- What `request` gives back to its caller. -/
inductive ReqResult where
  | returned (r : FetchResult)
  | undef
  | thrown (msg : String)
  deriving Repr, DecidableEq

/-- Observable trace of one `request` call. -/
structure ReqTrace where
  fetches : List FetchCall
  refreshCalls : Nat
  redirects : Nat
  deriving Repr, DecidableEq

/-- `request(endpoint, options)`: build `config` as the spread of the
computed headers object with the caller's options (so a caller-supplied
`headers` field replaces the computed one), fetch; on a 401 response run
the refresh flow — on refresh success recompute the headers and fetch
once more, on refresh failure set `window.location.href = '/login'` and
return undefined.  `f1`, `f2` are the outcomes of the first and (when
reached) second fetch, `rf` of the refresh fetch. -/
def request (baseURL : String) (st : AuthStore) (endpoint : String)
    (opts : FetchOptions) (f1 f2 : FetchResult) (rf : RefreshFetch) :
    ReqResult × AuthStore × ReqTrace :=
  let url := getURL baseURL endpoint
  let hdrs := opts.headers.getD (getHeaders st)
  let call1 : FetchCall := ⟨url, hdrs, opts.method, opts.body⟩
  match f1 with
  | .netErr m => (.thrown m, st, ⟨[call1], 0, 0⟩)
  | .resp status body =>
      if status == 401 then
        let r := refreshToken st rf
        if r.1 then
          let call2 : FetchCall :=
            ⟨url, getHeaders r.2.1, opts.method, opts.body⟩
          match f2 with
          | .netErr m => (.thrown m, r.2.1, ⟨[call1, call2], r.2.2, 0⟩)
          | .resp s2 b2 =>
              (.returned (.resp s2 b2), r.2.1, ⟨[call1, call2], r.2.2, 0⟩)
        else
          (.undef, r.2.1, ⟨[call1], r.2.2, 1⟩)
      else
        (.returned (.resp status body), st, ⟨[call1], 0, 0⟩)

/-! ## Stream decoding (src/script.js)

Two loops consume a chunked newline-delimited JSON body: the query loop
of `setupQuestionForm` and the chat loop of `sendChatMessage`.  Both
read transport chunks, split each decoded chunk on newline, drop lines
that are blank after trimming, and `JSON.parse` each remaining line.
The result of `JSON.parse` is abstracted as a `StreamLine`: either a
parse failure, or an envelope record holding the optional fields the
loops read.  DOM mutations are modelled as emitted events. -/

/-- The fields of a decoded stream envelope that the two loops read.
`none` is an absent (or null/undefined) field. -/
structure Envelope where
  error : Option String := none
  response_lang : Option String := none
  status : Option String := none
  generated_answer_chunk : Option String := none
  generated_answer : Option String := none
  contexts : List String := []
  response_chunk : Option String := none
  response : Option String := none
  deriving Repr, DecidableEq

/-- One non-blank line of a chunk: `JSON.parse` either throws
(`malformed`) or yields an envelope. -/
inductive StreamLine where
  | malformed (raw : String)
  | envelope (data : Envelope)
  deriving Repr, DecidableEq

/-- Mutable state of the query stream loop: the answer accumulator and
the detected response language. -/
structure QueryState where
  fullAnswer : String
  originalLang : String
  deriving Repr, DecidableEq

/-- `fullAnswer = ''`, `originalLang = 'en'` at loop entry. -/
def queryInit : QueryState := ⟨"", "en"⟩

/-- A DOM effect of the query loop, in program order. -/
inductive QueryEvent where
  | statusShown (s : String)
  | chunkAppended (s : String)
  | completeShown (answer : Option String) (contexts : List String)
  deriving Repr, DecidableEq

/-- One iteration of `for (const line of lines)` in the query loop.  A
parse failure is caught and skipped.  A truthy `error` field throws, and
that throw is caught by the same per-line catch, so the line contributes
nothing and the loop continues.  Otherwise: a truthy `response_lang`
updates `originalLang`; a truthy `status` rewrites the status element; a
truthy `generated_answer_chunk` is appended to `fullAnswer`; a `status`
strictly equal to `'complete'` renders the final answer item from
`generated_answer` and `contexts`. -/
def queryStep (st : QueryState) : StreamLine → QueryState × List QueryEvent
  | .malformed _ => (st, [])
  | .envelope d =>
      if truthy d.error then (st, [])
      else
        let st1 :=
          if truthy d.response_lang then
            { st with originalLang := d.response_lang.getD "" }
          else st
        let evs1 :=
          if truthy d.status then [QueryEvent.statusShown (d.status.getD "")]
          else []
        let st2 :=
          if truthy d.generated_answer_chunk then
            { st1 with
              fullAnswer := st1.fullAnswer ++ d.generated_answer_chunk.getD "" }
          else st1
        let evs2 :=
          if truthy d.generated_answer_chunk then
            [QueryEvent.chunkAppended (d.generated_answer_chunk.getD "")]
          else []
        let evs3 :=
          if d.status == some "complete" then
            [QueryEvent.completeShown d.generated_answer d.contexts]
          else []
        (st2, evs1 ++ evs2 ++ evs3)

/-- The query loop over the lines of one chunk (it has no break). -/
def queryRunLines : QueryState → List StreamLine → QueryState × List QueryEvent
  | st, [] => (st, [])
  | st, l :: ls =>
      let r1 := queryStep st l
      let r2 := queryRunLines r1.1 ls
      (r2.1, r1.2 ++ r2.2)

/-- The query `while (true)` read loop over a whole chunk sequence. -/
def queryRunChunks :
    QueryState → List (List StreamLine) → QueryState × List QueryEvent
  | st, [] => (st, [])
  | st, c :: cs =>
      let r1 := queryRunLines st c
      let r2 := queryRunChunks r1.1 cs
      (r2.1, r1.2 ++ r2.2)

/-- Mutable state of the chat stream loop: the accumulator
`botResponse`, the streaming bot message element (its current text, or
`none` before it exists) and the other bot messages added. -/
structure ChatState where
  botResponse : String
  elementText : Option String
  addedMessages : List String
  deriving Repr, DecidableEq

/-- `botResponse = ''`, `botMessageElement = null` at loop entry. -/
def chatInit : ChatState := ⟨"", none, []⟩

/-- One iteration of the chat loop's `for (const line of lines)`.
Returns the new state and whether the for loop continues (`false` on the
two `break` branches).  Branch order as in the source: a truthy
`response_chunk` appends to `botResponse` (creating the element if
needed); else a truthy `response` with `status === 'complete'` replaces
the text and breaks; else a truthy `error` adds an error bot message and
breaks; a parse failure is caught and the loop continues. -/
def chatLineStep (st : ChatState) : StreamLine → ChatState × Bool
  | .malformed _ => (st, true)
  | .envelope d =>
      if truthy d.response_chunk then
        let newResp := st.botResponse ++ d.response_chunk.getD ""
        ({ st with botResponse := newResp, elementText := some newResp }, true)
      else if truthy d.response && d.status == some "complete" then
        match st.elementText with
        | none =>
            ({ st with
               botResponse := d.response.getD "",
               addedMessages := st.addedMessages ++ [d.response.getD ""] },
             false)
        | some _ =>
            ({ st with
               botResponse := d.response.getD "",
               elementText := some (d.response.getD "") },
             false)
      else if truthy d.error then
        ({ st with
           addedMessages := st.addedMessages ++
             ["Sorry, I encountered an error: " ++ d.error.getD ""] },
         false)
      else (st, true)

/-- The chat loop over the lines of one chunk: a `break` abandons the
remaining lines of this chunk only. -/
def chatChunk : ChatState → List StreamLine → ChatState
  | st, [] => st
  | st, l :: ls =>
      let r := chatLineStep st l
      if r.2 then chatChunk r.1 ls else r.1

/-- The chat `while (true)` read loop: every transport chunk is
processed, a `break` inside a chunk notwithstanding. -/
def chatRunChunks : ChatState → List (List StreamLine) → ChatState
  | st, [] => st
  | st, c :: cs => chatRunChunks (chatChunk st c) cs

/-! ### Chunk-to-line splitting

`chunk.split('\n').filter(line => line.trim())` applied independently to
each decoded chunk. -/

/-- `String.prototype.split('\n')` on a character list: the maximal runs
between newline characters, in order (empty runs included). -/
def splitNewline : List Char → List (List Char)
  | [] => [[]]
  | c :: cs =>
      let r := splitNewline cs
      if c == '\n' then [] :: r
      else
        match r with
        | [] => [[c]]
        | l :: ls => (c :: l) :: ls

/-- An ASCII whitespace character as removed by
`String.prototype.trim`. -/
def isSpaceChar (c : Char) : Bool :=
  c == ' ' || c == '\t' || c == '\n' || c == '\r'

/-- `String.prototype.trim()` on a character list. -/
def jsTrim (l : List Char) : List Char :=
  ((l.dropWhile isSpaceChar).reverse.dropWhile isSpaceChar).reverse

/-- The lines one decoded chunk contributes: split on newline, keep the
lines that are non-blank after trimming
(`chunk.split('\n').filter(line => line.trim())`). -/
def chunkLines (chunk : String) : List String :=
  ((splitNewline chunk.toList).map (fun l => String.mk l)).filter
    (fun line => jsTrim line.toList != [])

/-- The sequence of lines the read loop hands to `JSON.parse`, in order:
each chunk is split on its own, no partial trailing line is carried into
the next chunk. -/
def streamLines : List String → List String
  | [] => []
  | c :: cs => chunkLines c ++ streamLines cs

/-! ## Concrete scenarios used by counterexamples and witnesses -/

/-- Queue entries A, B, C of the replay scenario. -/
def qA : QueueEntry Unit := ⟨"/A", (), 1⟩

/-- Entry B of the replay scenario. -/
def qB : QueueEntry Unit := ⟨"/B", (), 2⟩

/-- Entry C of the replay scenario. -/
def qC : QueueEntry Unit := ⟨"/C", (), 3⟩

/-- Replay transports: entry number 1 (B) always gets a non-retryable
400, entries 0 and 2 (A and C) succeed at once. -/
def replayOracles : Nat → Nat → Transport
  | 1, _ => .httpErr 400 "Bad Request"
  | _, _ => .ok "done"

/-- Client state whose persisted queue is [A, B, C]. -/
def replayState : ClientState Unit := ⟨[qA, qB, qC], some [qA, qB, qC]⟩

/-- A transport that rejects every attempt with a network failure whose
message contains `fetch`. -/
def fetchFailOracle : Nat → Transport := fun _ => .netErr "TypeError: Failed to fetch"

/-- A transport answering 500 twice, then succeeding. -/
def http500Oracle : Nat → Transport
  | 1 => .httpErr 500 "Internal Server Error"
  | 2 => .httpErr 500 "Internal Server Error"
  | _ => .ok "payload"

/-- A transport answering 405 (a 4xx other than 401) on every attempt. -/
def http405Oracle : Nat → Transport := fun _ => .httpErr 405 "Method Not Allowed"

/-! ## Supporting lemmas -/

theorem toList_append (s t : String) : (s ++ t).toList = s.toList ++ t.toList := rfl

theorem listIncludes_singleton : ∀ (l : List Char) (c : Char), c ∈ l →
    listIncludes l [c] = true
  | [], _, h => by cases h
  | a :: as, c, h => by
      simp only [listIncludes, Bool.or_eq_true]
      rcases List.mem_cons.mp h with rfl | h2
      · exact Or.inl (by simp [List.isPrefixOf])
      · exact Or.inr (listIncludes_singleton as c h2)

theorem shouldRetry_of_mem_five {msg : String} (h : '5' ∈ msg.toList) :
    shouldRetry msg = true := by
  have h1 : jsIncludes msg "5" = true := by
    simpa [jsIncludes] using listIncludes_singleton msg.toList '5' h
  simp [shouldRetry, h1]

theorem decDigitsAux_small : ∀ (fuel n : Nat), n < 10 → decDigitsAux fuel n = [n]
  | 0, _, _ => rfl
  | _ + 1, n, h => by simp [decDigitsAux, h]

theorem decDigitsAux_5xx : ∀ (fuel n : Nat), 2 ≤ fuel → 500 ≤ n → n < 600 →
    decDigitsAux fuel n = [5, n / 10 % 10, n % 10]
  | 0, _, hf, _, _ => absurd hf (by omega)
  | 1, _, hf, _, _ => absurd hf (by omega)
  | f + 2, n, _, h1, h2 => by
      have e1 : ¬ n < 10 := by omega
      have e2 : ¬ n / 10 < 10 := by omega
      have e3 : n / 10 / 10 = 5 := by omega
      simp [decDigitsAux, e1, e2, e3, decDigitsAux_small f 5 (by omega)]

theorem mem_decRepr_five {n : Nat} (h1 : 500 ≤ n) (h2 : n < 600) :
    '5' ∈ (decRepr n).toList := by
  have hd : decDigits n = [5, n / 10 % 10, n % 10] :=
    decDigitsAux_5xx n n (by omega) h1 h2
  have h5 : Char.ofNat (48 + 5) = '5' := by decide
  simp [decRepr, hd, h5, String.toList]

theorem shouldRetry_http_5xx {n : Nat} (t : String) (h1 : 500 ≤ n)
    (h2 : n < 600) : shouldRetry ("HTTP " ++ decRepr n ++ ": " ++ t) = true := by
  apply shouldRetry_of_mem_five
  simp only [toList_append, List.mem_append]
  exact Or.inl (Or.inl (Or.inr (mem_decRepr_five h1 h2)))

theorem makeRequest_ok {Opts : Type} (online : Bool) (oracle : Nat → Transport)
    (endpoint : String) (options : Opts) (now : Nat) (st : ClientState Opts)
    (attempt : Nat) (body : String) (h : oracle attempt = .ok body) :
    makeRequest online oracle endpoint options now st attempt =
      (.success body, st, ⟨1, []⟩) := by
  rw [makeRequest.eq_def, h]

theorem makeRequest_retry {Opts : Type} (online : Bool) (oracle : Nat → Transport)
    (endpoint : String) (options : Opts) (now : Nat) (st : ClientState Opts)
    (attempt : Nat) (m : String) (h : errorMessage (oracle attempt) = some m)
    (hlt : attempt < retryAttempts) (hr : shouldRetry m = true) :
    makeRequest online oracle endpoint options now st attempt =
      ((makeRequest online oracle endpoint options now st (attempt + 1)).1,
       (makeRequest online oracle endpoint options now st (attempt + 1)).2.1,
       ⟨(makeRequest online oracle endpoint options now st (attempt + 1)).2.2.calls + 1,
        retryDelay :: (makeRequest online oracle endpoint options now st (attempt + 1)).2.2.delays⟩) := by
  rw [makeRequest.eq_def]
  cases ho : oracle attempt with
  | ok body => rw [ho] at h; simp [errorMessage] at h
  | httpErr status statusText =>
      rw [ho] at h; simp only [errorMessage, Option.some.injEq] at h
      subst h
      simp [hlt, hr]
  | netErr msg =>
      rw [ho] at h; simp only [errorMessage, Option.some.injEq] at h
      subst h
      simp [hlt, hr]

theorem makeRequest_giveup_online {Opts : Type} (oracle : Nat → Transport)
    (endpoint : String) (options : Opts) (now : Nat) (st : ClientState Opts)
    (attempt : Nat) (m : String) (h : errorMessage (oracle attempt) = some m)
    (hno : ¬ (attempt < retryAttempts ∧ shouldRetry m = true)) :
    makeRequest true oracle endpoint options now st attempt =
      (.thrown m, st, ⟨1, []⟩) := by
  rw [makeRequest.eq_def]
  cases ho : oracle attempt with
  | ok body => rw [ho] at h; simp [errorMessage] at h
  | httpErr status statusText =>
      rw [ho] at h; simp only [errorMessage, Option.some.injEq] at h
      subst h
      simp [hno]
  | netErr msg =>
      rw [ho] at h; simp only [errorMessage, Option.some.injEq] at h
      subst h
      simp [hno]

theorem makeRequest_giveup_offline {Opts : Type} (oracle : Nat → Transport)
    (endpoint : String) (options : Opts) (now : Nat) (st : ClientState Opts)
    (attempt : Nat) (m : String) (h : errorMessage (oracle attempt) = some m)
    (hno : ¬ (attempt < retryAttempts ∧ shouldRetry m = true)) :
    makeRequest false oracle endpoint options now st attempt =
      (.thrown "Request queued for when online",
       queueOfflineRequest st endpoint options now, ⟨1, []⟩) := by
  rw [makeRequest.eq_def]
  cases ho : oracle attempt with
  | ok body => rw [ho] at h; simp [errorMessage] at h
  | httpErr status statusText =>
      rw [ho] at h; simp only [errorMessage, Option.some.injEq] at h
      subst h
      simp [hno]
  | netErr msg =>
      rw [ho] at h; simp only [errorMessage, Option.some.injEq] at h
      subst h
      simp [hno]

/-! ## Claim theorems: retry executor -/

/-- C3: a request that fails with a 5xx status on attempts 1 and 2 and
succeeds on attempt 3 makes exactly 3 network calls, awaits the fixed
1000 ms delay before each of the two retries (no backoff growth), and
returns the successful response; the retry recursion stops at the
attempt bound 3. -/
theorem makeRequest_5xx_twice_then_success {Opts : Type} (online : Bool)
    (oracle : Nat → Transport) (endpoint : String) (options : Opts)
    (now : Nat) (st : ClientState Opts) (s1 s2 : Nat) (t1 t2 body : String)
    (h1 : oracle 1 = .httpErr s1 t1) (h1a : 500 ≤ s1) (h1b : s1 < 600)
    (h2 : oracle 2 = .httpErr s2 t2) (h2a : 500 ≤ s2) (h2b : s2 < 600)
    (h3 : oracle 3 = .ok body) :
    makeRequest online oracle endpoint options now st 1 =
      (.success body, st, ⟨3, [retryDelay, retryDelay]⟩) := by
  rw [makeRequest_retry online oracle endpoint options now st 1 _
        (by rw [h1]; rfl) (by decide) (shouldRetry_http_5xx t1 h1a h1b),
      makeRequest_retry online oracle endpoint options now st 2 _
        (by rw [h2]; rfl) (by decide) (shouldRetry_http_5xx t2 h2a h2b),
      makeRequest_ok online oracle endpoint options now st 3 body h3]

/-- C3 witness: the scenario of `http500Oracle` (500 twice, then a 200
with body `payload`). -/
theorem makeRequest_5xx_twice_then_success_witness :
    http500Oracle 1 = .httpErr 500 "Internal Server Error" ∧
    (500 ≤ 500 ∧ 500 < 600) ∧
    http500Oracle 2 = .httpErr 500 "Internal Server Error" ∧
    http500Oracle 3 = .ok "payload" ∧
    makeRequest true http500Oracle "/query" () 0
        (⟨[], none⟩ : ClientState Unit) 1 =
      (.success "payload", ⟨[], none⟩, ⟨3, [retryDelay, retryDelay]⟩) :=
  ⟨rfl, ⟨by omega, by omega⟩, rfl, rfl,
   makeRequest_5xx_twice_then_success true http500Oracle "/query" () 0
     ⟨[], none⟩ 500 500 "Internal Server Error" "Internal Server Error"
     "payload" rfl (by omega) (by omega) rfl (by omega) (by omega) rfl⟩

/-- C2: when attempts 1 and 2 fail with retryable errors and attempt 3
fails as well (retries exhausted), then offline the queue gains exactly
the one entry of endpoint, options and timestamp, the whole queue is
re-persisted, and the caller gets the distinct queued-for-later error;
online, the state is untouched and the original attempt-3 error
propagates unchanged. -/
theorem makeRequest_exhausted (oracle : Nat → Transport)
    {Opts : Type} (endpoint : String) (options : Opts) (now : Nat)
    (st : ClientState Opts) (m1 m2 m3 : String)
    (h1 : errorMessage (oracle 1) = some m1) (hr1 : shouldRetry m1 = true)
    (h2 : errorMessage (oracle 2) = some m2) (hr2 : shouldRetry m2 = true)
    (h3 : errorMessage (oracle 3) = some m3) :
    makeRequest false oracle endpoint options now st 1 =
      (.thrown "Request queued for when online",
       ⟨st.offlineQueue ++ [⟨endpoint, options, now⟩],
        some (st.offlineQueue ++ [⟨endpoint, options, now⟩])⟩,
       ⟨3, [retryDelay, retryDelay]⟩) ∧
    makeRequest true oracle endpoint options now st 1 =
      (.thrown m3, st, ⟨3, [retryDelay, retryDelay]⟩) := by
  have hno : ¬ (3 < retryAttempts ∧ shouldRetry m3 = true) :=
    fun hc => Nat.lt_irrefl 3 hc.1
  constructor
  · rw [makeRequest_retry false oracle endpoint options now st 1 m1 h1
          (by decide) hr1,
        makeRequest_retry false oracle endpoint options now st 2 m2 h2
          (by decide) hr2,
        makeRequest_giveup_offline oracle endpoint options now st 3 m3 h3 hno]
    rfl
  · rw [makeRequest_retry true oracle endpoint options now st 1 m1 h1
          (by decide) hr1,
        makeRequest_retry true oracle endpoint options now st 2 m2 h2
          (by decide) hr2,
        makeRequest_giveup_online oracle endpoint options now st 3 m3 h3 hno]

/-- C2 witness: a fetch-level failure on every attempt, starting from an
empty queue. -/
theorem makeRequest_exhausted_witness :
    errorMessage (fetchFailOracle 1) = some "TypeError: Failed to fetch" ∧
    shouldRetry "TypeError: Failed to fetch" = true ∧
    makeRequest false fetchFailOracle "/endpoint" () 7
        (⟨[], none⟩ : ClientState Unit) 1 =
      (.thrown "Request queued for when online",
       ⟨[⟨"/endpoint", (), 7⟩], some [⟨"/endpoint", (), 7⟩]⟩,
       ⟨3, [retryDelay, retryDelay]⟩) ∧
    makeRequest true fetchFailOracle "/endpoint" () 7
        (⟨[], none⟩ : ClientState Unit) 1 =
      (.thrown "TypeError: Failed to fetch", ⟨[], none⟩,
       ⟨3, [retryDelay, retryDelay]⟩) := by
  refine ⟨rfl, by decide, ?_⟩
  simpa using makeRequest_exhausted fetchFailOracle "/endpoint" () 7
    ⟨[], none⟩ "TypeError: Failed to fetch" "TypeError: Failed to fetch"
    "TypeError: Failed to fetch" rfl (by decide) rfl (by decide) rfl

/-- C4: the code retries an HTTP 405 response, a 4xx status other than
401.  `shouldRetry` classifies the message `HTTP 405: Method Not
Allowed` as retryable (its test is substring `5`, not a 5xx check), so a
request answered 405 on every attempt performs 3 network calls with two
delays instead of propagating after a single call. -/
theorem makeRequest_405_is_retried :
    shouldRetry "HTTP 405: Method Not Allowed" = true ∧
    makeRequest true http405Oracle "/detection/submit" () 0
        (⟨[], none⟩ : ClientState Unit) 1 =
      (.thrown "HTTP 405: Method Not Allowed", ⟨[], none⟩,
       ⟨3, [retryDelay, retryDelay]⟩) := by
  have hm : errorMessage (http405Oracle 1) =
      some "HTTP 405: Method Not Allowed" := rfl
  have hno : ¬ (3 < retryAttempts ∧
      shouldRetry "HTTP 405: Method Not Allowed" = true) :=
    fun hc => Nat.lt_irrefl 3 hc.1
  refine ⟨by decide, ?_⟩
  rw [makeRequest_retry true http405Oracle "/detection/submit" () 0 ⟨[], none⟩
        1 _ hm (by decide) (by decide),
      makeRequest_retry true http405Oracle "/detection/submit" () 0 ⟨[], none⟩
        2 _ hm (by decide) (by decide),
      makeRequest_giveup_online http405Oracle "/detection/submit" () 0
        ⟨[], none⟩ 3 _ hm hno]

/-! ## Claim theorems: offline queue replay -/

theorem replayLoop_endpoints {Opts : Type} (online : Bool)
    (oracles : Nat → Nat → Transport) (now : Nat) :
    ∀ (q : List (QueueEntry Opts)) (st : ClientState Opts) (i : Nat),
      (replayLoop online oracles now st q i).2.map ReplayEvent.endpoint =
        q.map QueueEntry.endpoint
  | [], _, _ => rfl
  | e :: rest, st, i => by
      simp [replayLoop,
        replayLoop_endpoints online oracles now rest
          (makeRequest online (oracles i) e.endpoint e.options now st 1).2.1
          (i + 1)]

/-- C1 amended: a full replay pass re-invokes the request for every
entry of the persisted queue in insertion order and continues past
per-entry failures, but it then unconditionally removes the persisted
queue key and empties the in-memory queue — the post-replay persisted
queue is empty whatever the per-entry outcomes, not the list of failed
entries. -/
theorem processOfflineQueue_replays_then_clears {Opts : Type}
    (online : Bool) (oracles : Nat → Nat → Transport) (now : Nat)
    (st : ClientState Opts) :
    (processOfflineQueue online oracles now st).1 =
      (⟨[], none⟩ : ClientState Opts) ∧
    (processOfflineQueue online oracles now st).2.map ReplayEvent.endpoint =
      (st.stored.getD []).map QueueEntry.endpoint :=
  ⟨rfl, replayLoop_endpoints online oracles now (st.stored.getD []) st 0⟩

/-- C1 counterexample: for persisted queue [A, B, C] where the replay of
B fails (non-retryable 400) and A and C succeed, the replay log shows
all three entries attempted in order with B failing, yet the post-replay
persisted queue is removed (reads back as empty), not [B] as the claim
states. -/
theorem processOfflineQueue_discards_failed_entries :
    (processOfflineQueue true replayOracles 9 replayState).2 =
      [⟨"/A", true⟩, ⟨"/B", false⟩, ⟨"/C", true⟩] ∧
    (processOfflineQueue true replayOracles 9 replayState).1.stored = none ∧
    ¬ ((processOfflineQueue true replayOracles 9 replayState).1.stored =
        some [qB]) := by
  refine ⟨?_, rfl, fun hc => Option.noConfusion hc⟩
  simp +decide [processOfflineQueue, replayState, replayLoop, makeRequest,
    replayOracles, qA, qB, qC]

/-! ## Claim theorems: authenticated request layer -/

theorem refreshToken_fail_store (st : AuthStore) (rf : RefreshFetch)
    (h : (refreshToken st rf).1 = false) : (refreshToken st rf).2.1 = st := by
  unfold refreshToken at h ⊢
  cases hrt : st.refresh_token with
  | none => rfl
  | some rt =>
      rw [hrt] at h
      by_cases he : (rt == "") = true
      · simp [he]
      · simp only [he, Bool.false_eq_true, if_false] at h ⊢
        cases rf with
        | netErr => rfl
        | resp ok tok =>
            cases ok with
            | true => simp at h
            | false => rfl

/-- C5: a 401 answer while a non-empty refresh token is stored and the
refresh call succeeds: exactly one refresh call is made, the returned
access token is persisted, the original call is re-fetched exactly once
with recomputed headers carrying the new bearer token, and that retried
response is returned as is — in particular the trace records one refresh
whatever the retried call returns, so a 401 on the retry triggers no
further refresh. -/
theorem request_401_refresh_success (baseURL endpoint body rt tok : String)
    (st : AuthStore) (opts : FetchOptions) (f2 : FetchResult)
    (hrt : st.refresh_token = some rt) (hrt2 : (rt == "") = false)
    (htok : (tok == "") = false) :
    request baseURL st endpoint opts (.resp 401 body) f2 (.resp true tok) =
      ((match f2 with
        | .resp s2 b2 => ReqResult.returned (.resp s2 b2)
        | .netErr m => ReqResult.thrown m),
       { access_token := some tok, refresh_token := st.refresh_token },
       ⟨[⟨getURL baseURL endpoint, opts.headers.getD (getHeaders st),
          opts.method, opts.body⟩,
         ⟨getURL baseURL endpoint,
          ⟨some "application/json", some ("Bearer " ++ tok)⟩,
          opts.method, opts.body⟩], 1, 0⟩) := by
  cases f2 <;>
    simp [request, refreshToken, hrt, hrt2, getHeaders, htok, getURL]

/-- C5 witness: stored tokens (`old`, `r`), a 401 first answer, a
successful refresh granting `new`, and a 200 on the retried call. -/
theorem request_401_refresh_success_witness :
    (⟨some "old", some "r"⟩ : AuthStore).refresh_token = some "r" ∧
    (("r" : String) == "") = false ∧ (("new" : String) == "") = false ∧
    request "http://localhost:8005" ⟨some "old", some "r"⟩ "/users/me"
        ({} : FetchOptions) (.resp 401 "") (.resp 200 "profile")
        (.resp true "new") =
      (.returned (.resp 200 "profile"),
       ⟨some "new", some "r"⟩,
       ⟨[⟨getURL "http://localhost:8005" "/users/me",
          ⟨some "application/json", some ("Bearer " ++ "old")⟩, none, none⟩,
         ⟨getURL "http://localhost:8005" "/users/me",
          ⟨some "application/json", some ("Bearer " ++ "new")⟩, none, none⟩],
        1, 0⟩) := by
  refine ⟨rfl, rfl, rfl, ?_⟩
  simpa using request_401_refresh_success "http://localhost:8005" "/users/me"
    "" "r" "new" ⟨some "old", some "r"⟩ {} (.resp 200 "profile")
    rfl rfl rfl

/-- C6 amended: a 401 answer whose refresh flow fails leaves the stored
tokens unchanged (the code discards nothing), issues exactly one
redirect-to-login signal, does not retry the original call (exactly one
fetch), and hands the caller back undefined. -/
theorem request_401_refresh_failure (baseURL endpoint body : String)
    (st : AuthStore) (opts : FetchOptions) (f2 : FetchResult)
    (rf : RefreshFetch) (hfail : (refreshToken st rf).1 = false) :
    request baseURL st endpoint opts (.resp 401 body) f2 rf =
      (.undef, st,
       ⟨[⟨getURL baseURL endpoint, opts.headers.getD (getHeaders st),
          opts.method, opts.body⟩],
        (refreshToken st rf).2.2, 1⟩) := by
  simp [request, hfail, refreshToken_fail_store st rf hfail]

/-- C6 witness: tokens (`a`, `r`) stored, 401 answered, refresh fetch
rejected: state unchanged, one redirect, one fetch, undefined result. -/
theorem request_401_refresh_failure_witness :
    (refreshToken ⟨some "a", some "r"⟩ .netErr).1 = false ∧
    request "http://b" ⟨some "a", some "r"⟩ "/x" ({} : FetchOptions)
        (.resp 401 "") (.resp 200 "") .netErr =
      (.undef, ⟨some "a", some "r"⟩,
       ⟨[⟨getURL "http://b" "/x",
          ⟨some "application/json", some ("Bearer " ++ "a")⟩, none, none⟩],
        1, 1⟩) := by
  refine ⟨rfl, ?_⟩
  simpa using request_401_refresh_failure "http://b" "/x" ""
    ⟨some "a", some "r"⟩ {} (.resp 200 "") .netErr rfl

/-- C6 counterexample: after a 401 with a failing refresh (refresh fetch
rejected), the access and refresh tokens are still in the store — they
are not discarded as the claim states — while the redirect is issued and
the call is not retried. -/
theorem request_401_refresh_failure_keeps_tokens :
    (request "http://b" ⟨some "a", some "r"⟩ "/x" ({} : FetchOptions)
        (.resp 401 "") (.resp 200 "") .netErr).2.1 = ⟨some "a", some "r"⟩ ∧
    ¬ ((request "http://b" ⟨some "a", some "r"⟩ "/x" ({} : FetchOptions)
        (.resp 401 "") (.resp 200 "") .netErr).2.1 = ⟨none, none⟩) ∧
    (request "http://b" ⟨some "a", some "r"⟩ "/x" ({} : FetchOptions)
        (.resp 401 "") (.resp 200 "") .netErr).2.2.redirects = 1 ∧
    ((request "http://b" ⟨some "a", some "r"⟩ "/x" ({} : FetchOptions)
        (.resp 401 "") (.resp 200 "") .netErr).2.2.fetches).length = 1 := by
  decide

theorem request_fetches_head (baseURL : String) (st : AuthStore)
    (endpoint : String) (opts : FetchOptions) (f1 f2 : FetchResult)
    (rf : RefreshFetch) :
    (request baseURL st endpoint opts f1 f2 rf).2.2.fetches.head? =
      some ⟨getURL baseURL endpoint, opts.headers.getD (getHeaders st),
            opts.method, opts.body⟩ := by
  cases f1 with
  | netErr m => simp [request]
  | resp status body =>
      by_cases h4 : (status == 401) = true
      · by_cases hr : (refreshToken st rf).1 = true
        · cases f2 <;> simp [request, h4, hr]
        · simp [request, h4, hr]
      · simp [request, h4]

/-- C7 amended: the first fetch of `request` is always issued with the
spread of the computed headers and the caller's options — when the
caller supplies no `headers` field the call carries the computed
content-type plus bearer headers, but a caller-supplied `headers` field
replaces the computed headers entirely (the call carries exactly the
caller's headers, merged with nothing). -/
theorem request_headers_spread (baseURL endpoint : String) (st : AuthStore)
    (opts : FetchOptions) (f1 f2 : FetchResult) (rf : RefreshFetch) :
    ((request baseURL st endpoint opts f1 f2 rf).2.2.fetches.head? =
       some ⟨getURL baseURL endpoint, opts.headers.getD (getHeaders st),
             opts.method, opts.body⟩) ∧
    (∀ h, opts.headers = some h →
       (request baseURL st endpoint opts f1 f2 rf).2.2.fetches.head? =
         some ⟨getURL baseURL endpoint, h, opts.method, opts.body⟩) ∧
    (∀ t, opts.headers = none → st.access_token = some t →
       (t == "") = false →
       (request baseURL st endpoint opts f1 f2 rf).2.2.fetches.head? =
         some ⟨getURL baseURL endpoint,
               ⟨some "application/json", some ("Bearer " ++ t)⟩,
               opts.method, opts.body⟩) := by
  refine ⟨request_fetches_head baseURL st endpoint opts f1 f2 rf, ?_, ?_⟩
  · intro h hh
    rw [request_fetches_head baseURL st endpoint opts f1 f2 rf, hh]
    rfl
  · intro t hh ht ht2
    rw [request_fetches_head baseURL st endpoint opts f1 f2 rf, hh]
    simp [getHeaders, ht, ht2]

/-- C7 witness: with no caller `headers` field and access token `tok`
stored, the call carries content-type and the bearer header; with the
caller field `headers` set to an object of two absent fields, the call
carries exactly those. -/
theorem request_headers_spread_witness :
    ((⟨some "application/json", some "x"⟩ : Headers) =
        ⟨some "application/json", some "x"⟩ ∧
     (request "http://b" ⟨some "tok", none⟩ "/x" ({} : FetchOptions)
        (.resp 200 "ok") (.resp 200 "") .netErr).2.2.fetches.head? =
       some ⟨getURL "http://b" "/x",
             ⟨some "application/json", some ("Bearer " ++ "tok")⟩,
             none, none⟩) ∧
    (request "http://b" ⟨some "tok", none⟩ "/x"
        ({ headers := some ⟨some "text/plain", none⟩ } : FetchOptions)
        (.resp 200 "ok") (.resp 200 "") .netErr).2.2.fetches.head? =
      some ⟨getURL "http://b" "/x", ⟨some "text/plain", none⟩,
            none, none⟩ :=
  ⟨⟨rfl,
    (request_headers_spread "http://b" "/x" ⟨some "tok", none⟩ {}
        (.resp 200 "ok") (.resp 200 "") .netErr).2.2 "tok" rfl rfl rfl⟩,
   (request_headers_spread "http://b" "/x" ⟨some "tok", none⟩
        ({ headers := some ⟨some "text/plain", none⟩ } : FetchOptions)
        (.resp 200 "ok") (.resp 200 "") .netErr).2.1
     ⟨some "text/plain", none⟩ rfl⟩

/-- C7 counterexample: the caller's `headers` field is not merged with
the computed headers but replaces them — with access token `tok` stored
and the caller passing an empty headers object (as the login and
detection helpers do for form bodies), the issued call carries neither
the content-type nor the bearer authorization header. -/
theorem request_caller_headers_replace :
    (request "http://b" ⟨some "tok", none⟩ "/x"
        ({ headers := some ⟨none, none⟩ } : FetchOptions)
        (.resp 200 "ok") (.resp 200 "") .netErr).2.2.fetches =
      [⟨"http://b/x", ⟨none, none⟩, none, none⟩] ∧
    ¬ (∀ c ∈ (request "http://b" ⟨some "tok", none⟩ "/x"
        ({ headers := some ⟨none, none⟩ } : FetchOptions)
        (.resp 200 "ok") (.resp 200 "") .netErr).2.2.fetches,
        c.headers.contentType = some "application/json" ∧
        c.headers.authorization = some ("Bearer " ++ "tok")) := by
  decide

/-! ## Claim theorems: stream decoding -/

/-- C8 counterexample: in the query loop an error envelope does not stop
accumulation — its `throw` is caught by the per-line parse handler, and
a `generated_answer_chunk` arriving in a later transport chunk is still
appended to the accumulator, which ends as `XYZ` instead of staying
empty. -/
theorem query_error_does_not_stop_accumulation :
    (queryRunChunks queryInit
        [[.envelope { error := some "boom" }],
         [.envelope { generated_answer_chunk := some "XYZ" }]]).1.fullAnswer
      = "XYZ" ∧
    ¬ ((queryRunChunks queryInit
        [[.envelope { error := some "boom" }],
         [.envelope { generated_answer_chunk := some "XYZ" }]]).1.fullAnswer
      = "") := by
  decide

/-- C8 amended: an error envelope does not end accumulation for the
stream.  In the query loop its raised error is caught by the same
per-line handler as a parse failure, so the line contributes nothing and
every later line is processed as usual; in the chat loop the error
message is displayed and the remaining lines of the current transport
chunk are abandoned (`break`), but lines of subsequent chunks are still
appended to the accumulator. -/
theorem stream_error_envelope_behavior (d : Envelope) (st : QueryState)
    (cst : ChatState) (rest : List StreamLine)
    (herr : truthy d.error = true)
    (hchunk : truthy d.response_chunk = false)
    (hcomp : (truthy d.response && (d.status == some "complete")) = false) :
    queryStep st (.envelope d) = (st, []) ∧
    chatChunk cst (.envelope d :: rest) =
      { cst with addedMessages := cst.addedMessages ++
          ["Sorry, I encountered an error: " ++ d.error.getD ""] } ∧
    (chatRunChunks chatInit
        [[.envelope { error := some "boom" },
          .envelope { response_chunk := some "skipped" }],
         [.envelope { response_chunk := some "XYZ" }]]).botResponse
      = "XYZ" := by
  refine ⟨?_, ?_, by decide⟩
  · simp [queryStep, herr]
  · simp [chatChunk, chatLineStep, herr, hchunk, hcomp]

/-- C8 amended witness: the envelope carrying only `error = boom`,
entering both loops. -/
theorem stream_error_envelope_behavior_witness :
    truthy (Envelope.error { error := some "boom" }) = true ∧
    truthy (Envelope.response_chunk { error := some "boom" }) = false ∧
    (truthy (Envelope.response { error := some "boom" }) &&
      (Envelope.status { error := some "boom" } == some "complete")) = false ∧
    queryStep queryInit (.envelope { error := some "boom" }) =
      (queryInit, []) ∧
    chatChunk chatInit
        [.envelope { error := some "boom" },
         .envelope { response_chunk := some "skipped" }] =
      ⟨"", none, ["Sorry, I encountered an error: " ++ "boom"]⟩ ∧
    (chatRunChunks chatInit
        [[.envelope { error := some "boom" },
          .envelope { response_chunk := some "skipped" }],
         [.envelope { response_chunk := some "XYZ" }]]).botResponse
      = "XYZ" := by
  refine ⟨by decide, by decide, by decide, ?_⟩
  have h := stream_error_envelope_behavior { error := some "boom" }
    queryInit chatInit [.envelope { response_chunk := some "skipped" }]
    (by decide) (by decide) (by decide)
  exact ⟨h.1, by simpa using h.2.1, h.2.2⟩

/-- C9: a line that is not valid JSON is caught and skipped on its own:
in both stream loops, the run over any surrounding lines equals the run
with the malformed line deleted, so the stream is not aborted and every
well-formed line before and after still produces its event — as in the
spec's example of a truncated envelope between two well-formed chunk
lines, which still yields both chunk events and the full answer. -/
theorem malformed_line_only_skipped :
    (∀ (raw : String) (st : QueryState) (pre post : List StreamLine),
       queryRunLines st (pre ++ .malformed raw :: post) =
         queryRunLines st (pre ++ post)) ∧
    (∀ (raw : String) (cst : ChatState) (pre post : List StreamLine),
       chatChunk cst (pre ++ .malformed raw :: post) =
         chatChunk cst (pre ++ post)) ∧
    ((queryRunLines queryInit
        [.envelope { generated_answer_chunk := some "Hello " },
         .malformed "\x7b\"response_chunk\":",
         .envelope { generated_answer_chunk := some "world" }]).2 =
       [.chunkAppended "Hello ", .chunkAppended "world"] ∧
     (queryRunLines queryInit
        [.envelope { generated_answer_chunk := some "Hello " },
         .malformed "\x7b\"response_chunk\":",
         .envelope { generated_answer_chunk := some "world" }]).1.fullAnswer
       = "Hello world") := by
  refine ⟨?_, ?_, by decide⟩
  · intro raw st pre post
    induction pre generalizing st with
    | nil => simp [queryRunLines, queryStep]
    | cons l ls ih => simp [queryRunLines, ih]
  · intro raw cst pre post
    induction pre generalizing cst with
    | nil => simp [chatChunk, chatLineStep]
    | cons l ls ih =>
        simp only [List.cons_append, chatChunk]
        split
        · exact ih _
        · rfl

/-- C10: every transport chunk is split into lines independently — the
line sequence handed to the JSON parser is the concatenation of each
chunk's own split, every parsed line comes in full from a single chunk,
and an envelope whose text spans two chunks arrives as two separate
lines, never reassembled into one. -/
theorem streamLines_per_chunk :
    (∀ (c : String) (cs : List String),
       streamLines (c :: cs) = chunkLines c ++ streamLines cs) ∧
    (∀ (chunks : List String) (line : String),
       line ∈ streamLines chunks → ∃ c, c ∈ chunks ∧ line ∈ chunkLines c) ∧
    (streamLines ["\x7b\"answer\":", "\"hi\"\x7d"] =
       ["\x7b\"answer\":", "\"hi\"\x7d"] ∧
     ¬ ("\x7b\"answer\":\"hi\"\x7d" ∈
         streamLines ["\x7b\"answer\":", "\"hi\"\x7d"])) := by
  refine ⟨fun c cs => rfl, ?_, by decide⟩
  intro chunks line
  induction chunks with
  | nil => intro h; cases h
  | cons c cs ih =>
      intro h
      simp only [streamLines] at h
      rcases List.mem_append.mp h with h1 | h2
      · exact ⟨c, List.mem_cons_self c cs, h1⟩
      · obtain ⟨c2, hc2, hl⟩ := ih h2
        exact ⟨c2, List.mem_cons_of_mem c hc2, hl⟩

/-- C10 witness: the spanning envelope split over two chunks; its second
fragment is a line coming from the second chunk alone. -/
theorem streamLines_per_chunk_witness :
    ("\"hi\"\x7d" ∈ streamLines ["\x7b\"answer\":", "\"hi\"\x7d"]) ∧
    (∃ c, c ∈ ["\x7b\"answer\":", "\"hi\"\x7d"] ∧
       "\"hi\"\x7d" ∈ chunkLines c) :=
  ⟨by decide,
   streamLines_per_chunk.2.1 ["\x7b\"answer\":", "\"hi\"\x7d"]
     "\"hi\"\x7d" (by decide)⟩

end Agri

